import Mathlib

/-!
Shallow embedding of `src/main.rs` of the mpris-poc repository.

The program watches MPRIS media players on a session bus: it enumerates bus
names carrying the well-known namespace, builds one proxy per player, merges
the roster-change signal stream and the per-player metadata/volume property
streams into one `SelectAll`, and on each merged event either rebuilds
everything (roster change) or recomputes the full snapshot batch.

Modelling choices, each tied to the source:
* Bus interaction is captured by a `BusEnv` record giving the results the bus
  would return: whether `DBusProxy::new` succeeds, the `list_names` result,
  whether `receive_name_owner_changed` succeeds, and for each name the result
  of `PlayerProxy::new` together with what that proxy's property reads yield.
* Rust panics (`unwrap()` on an `Err`/`None`) are modelled by an explicit
  `panic` outcome constructor; `?`-propagated errors by an `err` constructor.
* The `f64` volume is modelled by a type parameter `V` rendered through
  `ToString`; no claim here depends on float arithmetic or float formatting.
* Async streams are modelled by their construction-time description
  (`SourceSpec`) plus the pure tagging closure applied to each emission
  (`sourceTag`); the claims settled below concern construction outcomes and
  the tagging functions, not scheduling.
-/

/-- `SERVICE_PREFIX` of main.rs line 58: the well-known MPRIS namespace. -/
def servicePfx : String := "org.mpris.MediaPlayer2."

/-- Rust's `str::starts_with`, stated on the character sequences of the two
strings (equivalent to the byte-level test for valid strings, and
kernel-reducible). -/
def strHasPfx (pre s : String) : Bool := pre.data.isPrefixOf s.data

/-- A raw `zvariant::OwnedValue` stored at a metadata key, abstracted to what
`get_title` can do with it: `try_into::<Vec<String>>` succeeds exactly on an
array of strings, `try_into::<String>` exactly on a string, and a value of any
other shape decodes to neither. -/
inductive MetaValue where
  | strList (xs : List String)
  | str (s : String)
  | other
deriving DecidableEq

/-- `TryInto::<Vec<String>>::try_into` on a metadata value (`Ok` ↦ `some`). -/
def decodeStrList : MetaValue → Option (List String)
  | .strList xs => some xs
  | _ => none

/-- `TryInto::<String>::try_into` on a metadata value (`Ok` ↦ `some`). -/
def decodeStr : MetaValue → Option String
  | .str s => some s
  | _ => none

/-- The two entries of the metadata `HashMap<String, OwnedValue>` that
`get_title` consults: the value at key `xesam:artist` and the value at key
`xesam:title`. `none` means the key is absent from the map. -/
structure MetadataBag where
  artist : Option MetaValue
  title : Option MetaValue
deriving DecidableEq

/-- Outcome of `PlayerProxy::get_title` (main.rs lines 34-49): a resolved
title string, a `TitleParseError`, or a Rust panic (the `.unwrap()` applied
to `m.get(..)` when a key is absent). -/
inductive TitleRes where
  | ok (s : String)
  | err
  | panic
deriving DecidableEq

/-- Main.rs lines 36-48, the pure part of `get_title` operating on the bag.
Rust evaluates the `artists` binding first, so an absent `xesam:artist` key
panics before `xesam:title` is even looked up; then an absent `xesam:title`
key panics; otherwise the `(artists, title)` match of lines 43-48 runs. -/
def resolveTitleBag (m : MetadataBag) : TitleRes :=
  match m.artist with
  | none => .panic
  | some av =>
    match m.title with
    | none => .panic
    | some tv =>
      match (decodeStrList av).map (fun a => String.intercalate ", " a), decodeStr tv with
      | some a, some t => .ok (a ++ " - " ++ t)
      | none, some t => .ok t
      | some a, none => .ok a
      | none, none => .err

/-- A bound `PlayerProxy`, reduced to the results its two property reads
return: `metadataRes = none` models `self.metadata()` returning `Err` (mapped
to `TitleParseError` by line 35), and `volumeRes` is the `volume()` read with
`none` for an `Err` (consumed through `.ok()` at line 164). -/
structure PlayerHandle (V : Type) where
  metadataRes : Option MetadataBag
  volumeRes : Option V
deriving DecidableEq

/-- `PlayerProxy::get_title` (main.rs lines 34-49): a failed metadata read is
an early `TitleParseError` return; a successful read runs the bag logic. -/
def get_title {V : Type} (p : PlayerHandle V) : TitleRes :=
  match p.metadataRes with
  | none => .err
  | some m => resolveTitleBag m

/-- `PlayerData` of main.rs lines 59-64 (`volume: Option<f64>` becomes
`Option V`). -/
structure PlayerData (V : Type) where
  service_name : String
  title : Option String
  volume : Option V
deriving DecidableEq

/-- The `strip_prefix(SERVICE_PREFIX).unwrap_or(..)` of main.rs lines 68-71:
drop the namespace when present, else keep the name unchanged. -/
def shortServiceName (s : String) : String :=
  if strHasPfx servicePfx s then ⟨s.data.drop servicePfx.data.length⟩ else s

/-- `impl Display for PlayerData` (main.rs lines 66-86). Note the shape of the
source's nested match: the volume is only consulted when a title is present;
with no title the line is `"<short>: Nothing"` whatever the volume field. -/
def PlayerData.render {V : Type} [ToString V] (d : PlayerData V) : String :=
  match d.title with
  | some t =>
    match d.volume with
    | some v => shortServiceName d.service_name ++ "[" ++ toString v ++ "]: " ++ t
    | none => shortServiceName d.service_name ++ ": " ++ t
  | none => shortServiceName d.service_name ++ ": Nothing"

/-- `PlayerEvent` of main.rs lines 52-56. `Names` is the roster-change tag;
`Metadata` and `Volume` are the state-change tags. None of the constructors
carries a payload, exactly as in the source. -/
inductive PlayerEvent where
  | Names
  | Metadata
  | Volume
deriving DecidableEq

/-- One underlying source pushed into the `SelectAll` by `init_streams`: the
filtered `name_owner_changed` signal stream, or one player's
`metadata_changed` / `volume_changed` property stream. -/
inductive SourceSpec where
  | nameOwner
  | metadataOf (n : String)
  | volumeOf (n : String)
deriving DecidableEq

/-- One raw emission of an underlying stream before tagging: a name-owner
signal whose argument parse yielded `some` name or `none` on `Err`
(`s.args()` at line 129), or a property-changed emission, whose payload the
source discards (`|_|` at lines 143 and 151). -/
inductive Emission where
  | nameOwnerChanged (argsRes : Option String)
  | propChanged
deriving DecidableEq

/-- The tagging closures of `init_streams`: the `filter_map` of lines 128-136
for the name-owner stream (keeping only names that start with the literal
`"org.mpris.MediaPlayer2."`, dropping `Err` args), and the constant `map`s of
lines 143 and 151 for the per-player property streams. -/
def sourceTag : SourceSpec → Emission → Option PlayerEvent
  | .nameOwner, .nameOwnerChanged (some nm) =>
    if strHasPfx "org.mpris.MediaPlayer2." nm then some .Names else none
  | .nameOwner, .nameOwnerChanged none => none
  | .nameOwner, .propChanged => none
  | .metadataOf _, _ => some .Metadata
  | .volumeOf _, _ => some .Volume

/-- The merged stream set, described by the sources it was built from, in the
order `init_streams` pushes them. -/
abbrev Multiplexer := List SourceSpec

/-- Everything the session bus decides, from the program's viewpoint:
whether `DBusProxy::new` succeeds, what `list_names` returns (`none` = `Err`),
whether `receive_name_owner_changed` succeeds, and per name the result of
`PlayerProxy::new` together with that proxy's property-read results. -/
structure BusEnv (V : Type) where
  dbusOk : Bool
  listNamesRes : Option (List String)
  nameOwnerOk : Bool
  bindPlayer : String → Option (PlayerHandle V)

/-- `get_player_names` (main.rs lines 180-189): a fresh `DBusProxy`, then
`list_names`, both `?`-propagated, then the names filtered to those starting
with `SERVICE_PREFIX`, preserving bus order. -/
def get_player_names {V : Type} (env : BusEnv V) : Option (List String) :=
  if env.dbusOk then
    match env.listNamesRes with
    | some ns => some (ns.filter (fun n => strHasPfx servicePfx n))
    | none => none
  else none

/-- Outcome of `init_streams`: the built `SelectAll`, an `Err` propagated by
`?`, or a panic. -/
inductive StreamsRes where
  | ok (m : Multiplexer)
  | err
  | panic
deriving DecidableEq

/-- `init_streams` (main.rs lines 113-156), in source order: `DBusProxy::new`
(`?`), `get_player_names` (`?`), then `join_all` over
`PlayerProxy::new(conn, n).await.unwrap()` — the `.unwrap()` at line 121
panics as soon as any single bind fails — then `receive_name_owner_changed`
(`?`), then the name-owner source followed by all metadata sources followed by
all volume sources. -/
def init_streams {V : Type} (env : BusEnv V) : StreamsRes :=
  if env.dbusOk then
    match get_player_names env with
    | none => .err
    | some names =>
      if names.all (fun n => (env.bindPlayer n).isSome) then
        if env.nameOwnerOk then
          .ok ([SourceSpec.nameOwner] ++ names.map SourceSpec.metadataOf
            ++ names.map SourceSpec.volumeOf)
        else .err
      else .panic
  else .err

/-- Outcome of a computation that either completes or hits a Rust panic. -/
inductive PRes (α : Type) where
  | ok (a : α)
  | panic
deriving DecidableEq

/-- The per-name async block of `get_data` (main.rs lines 159-175): a failed
`PlayerProxy::new` yields the `Default` snapshot with only the name filled in;
a successful bind reads the title (`.ok()` turns `TitleParseError` into an
absent title, but a panic inside `get_title` propagates) and the volume. -/
def playerDataRes {V : Type} (env : BusEnv V) (n : String) : PRes (PlayerData V) :=
  match env.bindPlayer n with
  | some player =>
    match get_title player with
    | .panic => .panic
    | .ok t => .ok ⟨n, some t, player.volumeRes⟩
    | .err => .ok ⟨n, none, player.volumeRes⟩
  | none => .ok ⟨n, none, none⟩

/-- `get_data` (main.rs lines 158-178): `join_all` over the per-name blocks,
in roster order. The surrounding `Result` is always `Ok` in the source (the
body is one `Ok(..)` expression), so the only non-completion is a panic of
some per-name block, which `join_all` propagates to the whole batch. -/
def get_data {V : Type} (env : BusEnv V) (names : List String) : PRes (List (PlayerData V)) :=
  match names with
  | [] => .ok []
  | n :: rest =>
    match playerDataRes env n, get_data env rest with
    | .ok d, .ok ds => .ok (d :: ds)
    | _, _ => .panic

/-- The mutable state of `main`'s loop (main.rs lines 92-94): the current
merged stream set, the current roster, and the current snapshot batch. -/
structure LoopState (V : Type) where
  combined : Multiplexer
  names : List String
  data : List (PlayerData V)
deriving DecidableEq

/-- Outcome of one loop iteration: the next state, an `Err` return from
`main` (a `?` fired), or a panic. -/
inductive StepRes (V : Type) where
  | ok (s : LoopState V)
  | err
  | panic
deriving DecidableEq

/-- The body of `main`'s event loop (main.rs lines 96-107) for one consumed
event. `PlayerEvent::Names` rebuilds the streams, re-enumerates the roster and
recomputes the batch; any other event (`Metadata` or `Volume`, the `_` arm at
line 103) keeps the streams and roster and recomputes the batch over the
current roster. Printing is presentation and is not modelled. -/
def step {V : Type} (env : BusEnv V) (s : LoopState V) (e : PlayerEvent) : StepRes V :=
  match e with
  | .Names =>
    match init_streams env with
    | .err => .err
    | .panic => .panic
    | .ok m =>
      match get_player_names env with
      | none => .err
      | some ns =>
        match get_data env ns with
        | .panic => .panic
        | .ok d => .ok ⟨m, ns, d⟩
  | _ =>
    match get_data env s.names with
    | .panic => .panic
    | .ok d => .ok ⟨s.combined, s.names, d⟩

/-! ## Concrete environments used by individual claims -/

/-- Bus environment for claim C1: one enumerated player whose
`PlayerProxy::new` fails (it vanished between enumeration and bind); the
transport itself is healthy. -/
def envC1 : BusEnv Nat :=
  ⟨true, some ["org.mpris.MediaPlayer2.mpv"], true, fun _ => none⟩

/-- Bus environment for claim C2: one player whose metadata read succeeds but
whose bag holds undecodable values at both keys. -/
def envC2 : BusEnv Nat :=
  ⟨true, some ["org.mpris.MediaPlayer2.badmeta"], true,
    fun n => if n = "org.mpris.MediaPlayer2.badmeta"
      then some ⟨some ⟨some .other, some .other⟩, some 2⟩ else none⟩

/-! ## Claims -/

/-- C1: the claim says a per-source establishment failure is omitted from the
merged set and construction still succeeds. In the code, `init_streams`
unwraps every `PlayerProxy::new` result (main.rs line 121), so a single bind
failure panics the whole construction instead of omitting the source. -/
theorem init_streams_panics_on_bind_failure :
    init_streams envC1 = StreamsRes.panic := by decide

/-- C2: the claim says that whenever neither metadata field is well-typed
(missing, wrong shape, or decode failure) title resolution fails with the
recoverable error and never panics. The code panics on the missing-key case:
`m.get("xesam:artist").unwrap()` at line 38. The conjuncts show (1) a bag with
both keys absent makes `get_title` panic, (2) the present-but-undecodable case
does return the recoverable error, and (3) that error is recovered locally
into an absent title by the snapshot computation. -/
theorem get_title_panics_on_missing_keys :
    get_title (⟨some ⟨none, none⟩, none⟩ : PlayerHandle Nat) = TitleRes.panic
    ∧ resolveTitleBag ⟨some .other, some .other⟩ = TitleRes.err
    ∧ playerDataRes envC2 "org.mpris.MediaPlayer2.badmeta"
      = PRes.ok ⟨"org.mpris.MediaPlayer2.badmeta", none, some 2⟩ := by decide

/-- C6: with a well-typed artist list and a well-typed title, resolution
returns the artists joined with a comma-space, then a dash, then the title
(main.rs line 44). -/
theorem resolve_title_both_well_typed (A : List String) (T : String) (_hA : A ≠ []) :
    resolveTitleBag ⟨some (.strList A), some (.str T)⟩
      = TitleRes.ok (String.intercalate ", " A ++ " - " ++ T) := rfl

/-- Witness for C6 at the spec's own scenario. -/
theorem resolve_title_both_well_typed_witness :
    (["Queen"] : List String) ≠ []
    ∧ resolveTitleBag ⟨some (.strList ["Queen"]), some (.str "Bohemian Rhapsody")⟩
      = TitleRes.ok (String.intercalate ", " ["Queen"] ++ " - " ++ "Bohemian Rhapsody") :=
  ⟨by decide, resolve_title_both_well_typed ["Queen"] "Bohemian Rhapsody" (by decide)⟩

/-- C7: the claim says an absent artist entry with a well-typed title yields
the title, and a well-typed artist list with an absent title entry yields the
joined artists. In the code either absent key hits an `.unwrap()` on `None`
(lines 38 and 42) and panics; the fallbacks of lines 45-46 are only reachable
when both keys are present. -/
theorem resolve_title_single_absent_panics :
    resolveTitleBag ⟨none, some (.str "Track 1")⟩ = TitleRes.panic
    ∧ resolveTitleBag ⟨some (.strList ["Queen"]), none⟩ = TitleRes.panic := ⟨rfl, rfl⟩

/-- Bus environment for claim C3 before the state change: two players, both
bound, player B's track is "x". -/
def envC3old : BusEnv Nat :=
  ⟨true, some ["org.mpris.MediaPlayer2.playerA", "org.mpris.MediaPlayer2.playerB"], true,
    fun n =>
      if n = "org.mpris.MediaPlayer2.playerB"
        then some ⟨some ⟨some (.strList ["B"]), some (.str "x")⟩, some 1⟩
        else some ⟨some ⟨some (.strList ["A"]), some (.str "t")⟩, some 1⟩⟩

/-- Bus environment for claim C3 at the instant the state-change event for
player A is processed: meanwhile player B's track moved on to "y". -/
def envC3new : BusEnv Nat :=
  ⟨true, some ["org.mpris.MediaPlayer2.playerA", "org.mpris.MediaPlayer2.playerB"], true,
    fun n =>
      if n = "org.mpris.MediaPlayer2.playerB"
        then some ⟨some ⟨some (.strList ["B"]), some (.str "y")⟩, some 1⟩
        else some ⟨some ⟨some (.strList ["A"]), some (.str "t")⟩, some 1⟩⟩

/-- The roster both C3 environments enumerate. -/
def rosterC3 : List String :=
  ["org.mpris.MediaPlayer2.playerA", "org.mpris.MediaPlayer2.playerB"]

/-- The snapshot batch computed from `envC3old`. -/
def dataC3old : List (PlayerData Nat) :=
  [⟨"org.mpris.MediaPlayer2.playerA", some "A - t", some 1⟩,
   ⟨"org.mpris.MediaPlayer2.playerB", some "B - x", some 1⟩]

/-- The snapshot batch computed from `envC3new`. -/
def dataC3new : List (PlayerData Nat) :=
  [⟨"org.mpris.MediaPlayer2.playerA", some "A - t", some 1⟩,
   ⟨"org.mpris.MediaPlayer2.playerB", some "B - y", some 1⟩]

/-- C3: the claim says a state-change event for one identity recomputes that
identity's snapshot only, leaving every other player's snapshot unchanged.
The code's `_` arm (main.rs line 103) reruns `get_data` over the whole roster,
so a metadata event attributable to player A also replaces player B's
snapshot: here B's entry changes from "B - x" to "B - y" although the event
was A's. -/
theorem step_state_change_alters_other_snapshot :
    get_data envC3old rosterC3 = PRes.ok dataC3old
    ∧ step envC3new ⟨[], rosterC3, dataC3old⟩ PlayerEvent.Metadata
      = StepRes.ok ⟨[], rosterC3, dataC3new⟩
    ∧ dataC3old.get? 1 ≠ dataC3new.get? 1 := by decide

/-- C3 (amended): on a state-change event (`Metadata` or `Volume`) the loop
stays in its stable mode — the merged stream set and the roster are kept —
but recomputes the full snapshot batch over the current roster, not only the
affected identity (the event does not even carry one). -/
theorem step_state_change_full_recompute (env : BusEnv Nat) (s : LoopState Nat)
    (e : PlayerEvent) (l : List (PlayerData Nat)) (he : e ≠ PlayerEvent.Names)
    (hd : get_data env s.names = PRes.ok l) :
    step env s e = StepRes.ok ⟨s.combined, s.names, l⟩ := by
  cases e with
  | Names => exact absurd rfl he
  | Metadata => simp [step, hd]
  | Volume => simp [step, hd]

/-- Bus environment for the C3 witness: a single enumerated player that fails
to bind. -/
def envC3w : BusEnv Nat := ⟨true, some ["org.mpris.MediaPlayer2.z"], true, fun _ => none⟩

/-- Witness for the amended C3 at a concrete state and event. -/
theorem step_state_change_full_recompute_witness :
    PlayerEvent.Metadata ≠ PlayerEvent.Names
    ∧ get_data envC3w ["org.mpris.MediaPlayer2.z"]
      = PRes.ok [⟨"org.mpris.MediaPlayer2.z", none, none⟩]
    ∧ step envC3w ⟨[], ["org.mpris.MediaPlayer2.z"], []⟩ PlayerEvent.Metadata
      = StepRes.ok ⟨[], ["org.mpris.MediaPlayer2.z"],
          [⟨"org.mpris.MediaPlayer2.z", none, none⟩]⟩ :=
  ⟨by decide, by decide,
    step_state_change_full_recompute envC3w ⟨[], ["org.mpris.MediaPlayer2.z"], []⟩
      PlayerEvent.Metadata [⟨"org.mpris.MediaPlayer2.z", none, none⟩]
      (by decide) (by decide)⟩

/-- C4: the claim says every state-change event carries the identity of its
originating source, so the consumer can tell which player emitted. The code
maps every metadata emission of every player to the bare constant
`PlayerEvent::Metadata` (main.rs line 143), so two different players' sources
produce identical events and no function on the consumed event can recover
the originating player. -/
theorem metadata_tag_identity_free :
    sourceTag (SourceSpec.metadataOf "org.mpris.MediaPlayer2.a") Emission.propChanged
      = sourceTag (SourceSpec.metadataOf "org.mpris.MediaPlayer2.b") Emission.propChanged
    ∧ ("org.mpris.MediaPlayer2.a" : String) ≠ "org.mpris.MediaPlayer2.b"
    ∧ ¬ ∃ f : Option PlayerEvent → String,
        f (sourceTag (SourceSpec.metadataOf "org.mpris.MediaPlayer2.a") Emission.propChanged)
          = "org.mpris.MediaPlayer2.a"
        ∧ f (sourceTag (SourceSpec.metadataOf "org.mpris.MediaPlayer2.b") Emission.propChanged)
          = "org.mpris.MediaPlayer2.b" := by
  refine ⟨rfl, by decide, ?_⟩
  rintro ⟨f, h1, h2⟩
  rw [show sourceTag (SourceSpec.metadataOf "org.mpris.MediaPlayer2.b") Emission.propChanged
      = sourceTag (SourceSpec.metadataOf "org.mpris.MediaPlayer2.a") Emission.propChanged
      from rfl, h1] at h2
  exact absurd h2 (by decide)

/-- C4 (amended): every consumed event is one of `Names`, `Metadata`,
`Volume`; the per-player tagging closures are constant in both the player and
the emission, so state-change events carry no player identity. -/
theorem tagged_events_carry_no_identity :
    (∀ (n : String) (em : Emission),
      sourceTag (SourceSpec.metadataOf n) em = some PlayerEvent.Metadata
      ∧ sourceTag (SourceSpec.volumeOf n) em = some PlayerEvent.Volume)
    ∧ (∀ ev : PlayerEvent,
        ev = PlayerEvent.Names ∨ ev = PlayerEvent.Metadata ∨ ev = PlayerEvent.Volume) := by
  constructor
  · intro n em
    cases em <;> exact ⟨rfl, rfl⟩
  · intro ev
    cases ev
    · exact Or.inl rfl
    · exact Or.inr (Or.inl rfl)
    · exact Or.inr (Or.inr rfl)

/-- C8: the claim says the volume segment is omitted exactly when the volume
is unknown, and the `Nothing` fallback appears exactly when no datum is
available at all. The source's `Display` match consults the volume only under
`Some(title)` (main.rs lines 72-84): with an absent title and a known volume
the line is still `"<short>: Nothing"`, so a known volume is dropped. -/
theorem render_nothing_despite_known_volume :
    PlayerData.render (⟨"org.mpris.MediaPlayer2.spotify", none, some 8⟩ : PlayerData Nat)
      = "spotify: Nothing"
    ∧ (⟨"org.mpris.MediaPlayer2.spotify", none, some 8⟩ : PlayerData Nat).volume ≠ none := by
  decide

/-- C8 (amended): the full output shape of the `Display` impl — with title
and volume known the line is `"<short>[<volume>]: <title>"`; with only the
title known it is `"<short>: <title>"`; with the title unknown it is
`"<short>: Nothing"` regardless of the volume field; and the short name is
the identity with the `org.mpris.MediaPlayer2.` namespace stripped. -/
theorem render_characterization (n t : String) (v : Nat) (vq : Option Nat) :
    PlayerData.render (⟨n, some t, some v⟩ : PlayerData Nat)
      = shortServiceName n ++ "[" ++ toString v ++ "]: " ++ t
    ∧ PlayerData.render (⟨n, some t, none⟩ : PlayerData Nat)
      = shortServiceName n ++ ": " ++ t
    ∧ PlayerData.render (⟨n, none, vq⟩ : PlayerData Nat)
      = shortServiceName n ++ ": Nothing"
    ∧ shortServiceName "org.mpris.MediaPlayer2.spotify" = "spotify" :=
  ⟨rfl, rfl, rfl, by decide⟩

/-- Helper: one loop iteration on a state-change event never touches the
roster; only the `Names` arm reassigns `names` (main.rs lines 98-105). -/
theorem step_keeps_names {V : Type} (env : BusEnv V) (s s2 : LoopState V)
    (e : PlayerEvent) (hne : e ≠ PlayerEvent.Names)
    (h : step env s e = StepRes.ok s2) : s2.names = s.names := by
  cases e with
  | Names => exact absurd rfl hne
  | Metadata =>
    cases hg : get_data env s.names with
    | panic => simp [step, hg] at h
    | ok d =>
      have h2 : step env s PlayerEvent.Metadata = StepRes.ok ⟨s.combined, s.names, d⟩ := by
        simp [step, hg]
      rw [h2] at h
      injection h with h3
      rw [← h3]
  | Volume =>
    cases hg : get_data env s.names with
    | panic => simp [step, hg] at h
    | ok d =>
      have h2 : step env s PlayerEvent.Volume = StepRes.ok ⟨s.combined, s.names, d⟩ := by
        simp [step, hg]
      rw [h2] at h
      injection h with h3
      rw [← h3]

/-- Bus environment for the C9 counterexample: two enumerated players, one
bindable, one vanished. -/
def envC9 : BusEnv Nat :=
  ⟨true, some ["org.mpris.MediaPlayer2.vlc", "org.mpris.MediaPlayer2.kept"], true,
    fun n => if n = "org.mpris.MediaPlayer2.kept"
      then some ⟨some ⟨some (.strList ["K"]), some (.str "s")⟩, some 4⟩ else none⟩

/-- C9: the claim says a per-identity failure of a property read *or
subscription* is contained and never aborts the control loop. Containment
does hold for the snapshot path, but on the subscription path a failed bind
hits the `.unwrap()` of main.rs line 121 and panics the whole stream
construction — here one healthy player does not save the loop. -/
theorem init_streams_subscribe_failure_aborts :
    init_streams envC9 = StreamsRes.panic := by decide

/-- C9 (amended): a per-identity failure on the snapshot path is contained,
whether `PlayerProxy::new` itself fails (`bindPlayer n = none`, the `Err` arm
of main.rs lines 171-174) or the bind succeeds and both property reads fail
(`bindPlayer n = some ⟨none, none⟩`: `metadata()` errors into
`TitleParseError` and `volume()` errors, both swallowed by `.ok()` at lines
163-164). Either way the name gets the no-data snapshot (absent title and
volume), that snapshot prints as `"<short>: Nothing"`, and no state-change
iteration removes the name — the roster is reassigned only by the `Names`
arm. -/
theorem snapshot_failure_contained_per_identity (env : BusEnv Nat) (n : String)
    (s s2 : LoopState Nat) (e : PlayerEvent)
    (hb : env.bindPlayer n = none ∨ env.bindPlayer n = some ⟨none, none⟩) :
    playerDataRes env n = PRes.ok ⟨n, none, none⟩
    ∧ PlayerData.render (⟨n, none, none⟩ : PlayerData Nat)
      = shortServiceName n ++ ": Nothing"
    ∧ (e ≠ PlayerEvent.Names → step env s e = StepRes.ok s2 → s2.names = s.names) := by
  refine ⟨?_, rfl, ?_⟩
  · rcases hb with hb | hb
    · simp [playerDataRes, hb]
    · simp [playerDataRes, hb, get_title]
  · intro hne hstep
    exact step_keeps_names env s s2 e hne hstep

/-- Bus environment for the C9 witness: an empty roster; the one queried name
binds, but both of its property reads fail. -/
def envC9w : BusEnv Nat :=
  ⟨true, some [], true,
    fun n => if n = "org.mpris.MediaPlayer2.gone" then some ⟨none, none⟩ else none⟩

/-- Witness for the amended C9 at a concrete identity, state and event,
exercising the read-failure leg: the bind succeeds and both reads fail. -/
theorem snapshot_failure_contained_per_identity_witness :
    (envC9w.bindPlayer "org.mpris.MediaPlayer2.gone" = none
      ∨ envC9w.bindPlayer "org.mpris.MediaPlayer2.gone" = some ⟨none, none⟩)
    ∧ (playerDataRes envC9w "org.mpris.MediaPlayer2.gone"
        = PRes.ok ⟨"org.mpris.MediaPlayer2.gone", none, none⟩
      ∧ PlayerData.render (⟨"org.mpris.MediaPlayer2.gone", none, none⟩ : PlayerData Nat)
        = shortServiceName "org.mpris.MediaPlayer2.gone" ++ ": Nothing"
      ∧ (PlayerEvent.Metadata ≠ PlayerEvent.Names →
          step envC9w ⟨[], [], []⟩ PlayerEvent.Metadata = StepRes.ok ⟨[], [], []⟩ →
          (⟨[], [], []⟩ : LoopState Nat).names = (⟨[], [], []⟩ : LoopState Nat).names)) :=
  ⟨Or.inr (by decide),
    snapshot_failure_contained_per_identity envC9w "org.mpris.MediaPlayer2.gone"
      ⟨[], [], []⟩ ⟨[], [], []⟩ PlayerEvent.Metadata (Or.inr (by decide))⟩

/-- Helper: a completed per-name snapshot carries the queried name as its
identity (`service_name: n.clone()` in both arms of `get_data`). -/
theorem playerDataRes_name {V : Type} (env : BusEnv V) (n : String) (d : PlayerData V)
    (h : playerDataRes env n = PRes.ok d) : d.service_name = n := by
  cases hb : env.bindPlayer n with
  | none =>
    simp only [playerDataRes, hb] at h
    injection h with h2
    rw [← h2]
  | some p =>
    cases hg : get_title p with
    | panic => simp [playerDataRes, hb, hg] at h
    | ok t =>
      simp only [playerDataRes, hb, hg] at h
      injection h with h2
      rw [← h2]
    | err =>
      simp only [playerDataRes, hb, hg] at h
      injection h with h2
      rw [← h2]

/-- Bus environment for the C10 counterexample: the single player binds fine
but its metadata bag carries neither of the two keys `get_title` unwraps. -/
def envC10bad : BusEnv Nat :=
  ⟨true, some ["org.mpris.MediaPlayer2.nokeys"], true,
    fun _ => some ⟨some ⟨none, none⟩, some 3⟩⟩

/-- C10: the claim says the batch computation always returns one snapshot per
input name. It does not: a player that binds successfully but exposes a
metadata map without the `xesam:` keys panics inside `get_title`, and
`join_all` propagates the panic to the whole batch. -/
theorem get_data_panics_despite_bind_success :
    (envC10bad.bindPlayer "org.mpris.MediaPlayer2.nokeys").isSome = true
    ∧ get_data envC10bad ["org.mpris.MediaPlayer2.nokeys"] = PRes.panic := by decide

/-- C10 (amended): whenever no per-name snapshot computation panics (the
missing-metadata-key panic of `get_title` being the only panic source), the
batch returns exactly one snapshot per input name, in input order, each
carrying its name as identity; a name that fails to bind never fails the
batch — it contributes the no-data snapshot. -/
theorem get_data_batch_shape (env : BusEnv Nat) (names : List String)
    (hnp : ∀ n ∈ names, playerDataRes env n ≠ PRes.panic) :
    ∃ l : List (PlayerData Nat),
      get_data env names = PRes.ok l
      ∧ l.length = names.length
      ∧ (∀ i (h1 : i < l.length) (h2 : i < names.length),
          (l.get ⟨i, h1⟩).service_name = names.get ⟨i, h2⟩)
      ∧ (∀ n ∈ names, env.bindPlayer n = none
          → (⟨n, none, none⟩ : PlayerData Nat) ∈ l) := by
  induction names with
  | nil =>
    refine ⟨[], rfl, rfl, ?_, ?_⟩
    · intro i h1 h2
      exact absurd h1 (Nat.not_lt_zero i)
    · intro n hn
      exact absurd hn (List.not_mem_nil n)
  | cons n rest ih =>
    have hn : playerDataRes env n ≠ PRes.panic := hnp n (List.mem_cons_self n rest)
    obtain ⟨l, hl, hlen, hidx, hmem⟩ := ih (fun m hm => hnp m (List.mem_cons_of_mem n hm))
    cases hd : playerDataRes env n with
    | panic => exact absurd hd hn
    | ok d =>
      refine ⟨d :: l, ?_, ?_, ?_, ?_⟩
      · simp [get_data, hd, hl]
      · simp [hlen]
      · intro i h1 h2
        cases i with
        | zero => exact playerDataRes_name env n d hd
        | succ j => exact hidx j (Nat.lt_of_succ_lt_succ h1) (Nat.lt_of_succ_lt_succ h2)
      · intro m hm hbm
        rcases List.mem_cons.mp hm with rfl | hm2
        · have hok : playerDataRes env m = PRes.ok ⟨m, none, none⟩ := by
            simp [playerDataRes, hbm]
          rw [hd] at hok
          injection hok with h4
          rw [← h4]
          exact List.mem_cons_self d l
        · exact List.mem_cons_of_mem d (hmem m hm2 hbm)

/-- Bus environment for the C10 witness: one bindable player, all other
names vanish at bind time. -/
def envC10w : BusEnv Nat :=
  ⟨true, some [], true,
    fun n => if n = "org.mpris.MediaPlayer2.live"
      then some ⟨some ⟨some (.strList ["A"]), some (.str "s")⟩, some 5⟩ else none⟩

/-- Witness for the amended C10 on a two-name roster with one vanished
player. -/
theorem get_data_batch_shape_witness :
    (∀ n ∈ ["org.mpris.MediaPlayer2.live", "org.mpris.MediaPlayer2.dead"],
      playerDataRes envC10w n ≠ PRes.panic)
    ∧ ∃ l : List (PlayerData Nat),
        get_data envC10w ["org.mpris.MediaPlayer2.live", "org.mpris.MediaPlayer2.dead"]
          = PRes.ok l
        ∧ l.length = (["org.mpris.MediaPlayer2.live",
            "org.mpris.MediaPlayer2.dead"] : List String).length
        ∧ (∀ i (h1 : i < l.length)
            (h2 : i < (["org.mpris.MediaPlayer2.live",
              "org.mpris.MediaPlayer2.dead"] : List String).length),
            (l.get ⟨i, h1⟩).service_name
              = (["org.mpris.MediaPlayer2.live",
                  "org.mpris.MediaPlayer2.dead"] : List String).get ⟨i, h2⟩)
        ∧ (∀ n ∈ ["org.mpris.MediaPlayer2.live", "org.mpris.MediaPlayer2.dead"],
            envC10w.bindPlayer n = none → (⟨n, none, none⟩ : PlayerData Nat) ∈ l) :=
  ⟨by decide,
    get_data_batch_shape envC10w
      ["org.mpris.MediaPlayer2.live", "org.mpris.MediaPlayer2.dead"] (by decide)⟩
